import Mathlib

/-!
Shallow embedding of the file-encryption tool in `src/crypter/crypter.py`.

Bytes are modelled as `List Nat`, character strings as `List Char`.  The
external library primitives (SHA-1, SHA-256, AES-GCM) are not code of this
repository: they enter every definition as explicit function parameters, and
the theorems that need their contracts (AEAD round-trip, output length,
digest size) take those contracts as hypotheses.  Interactive prompts and the
filesystem are modelled as explicit inputs, so each workflow is a pure
function of a script of operator answers and filesystem contents.
-/

namespace Crypter

/-- `FileEncryptor.HEADER_SIGNATURE = b"YJCHGCM1"` (crypter.py line 23), as bytes. -/
def HEADER_SIGNATURE : List Nat := [0x59, 0x4A, 0x43, 0x48, 0x47, 0x43, 0x4D, 0x31]

/-- `FileEncryptor.HEADER_LEN = len(HEADER_SIGNATURE)` (line 24). -/
def HEADER_LEN : Nat := HEADER_SIGNATURE.length

/-- `FileEncryptor.IV_LEN = 12`, the AES-GCM nonce size (line 25). -/
def IV_LEN : Nat := 12

/-- `_derive_key` (lines 206-207): the SHA-256 digest of the UTF-8 password.
The hash core is the `hashlib` library primitive, taken as a parameter; the
method itself adds nothing around it. -/
def deriveKey (sha256 : List Nat → List Nat) (passwordUtf8 : List Nat) : List Nat :=
  sha256 passwordUtf8

/-- The bytes `_handle_encrypt` writes to the output file (lines 105-108):
the signature, then the nonce, then the AEAD output (ciphertext with the tag
appended by the library). -/
def encryptContainer (aeadEnc : List Nat → List Nat → List Nat → List Nat)
    (key iv data : List Nat) : List Nat :=
  HEADER_SIGNATURE ++ iv ++ aeadEnc key iv data

/-- Container parsing in `_handle_decrypt` (lines 137-140): seek past the
signature, read `IV_LEN` bytes of nonce. -/
def parseIv (fileBytes : List Nat) : List Nat :=
  (fileBytes.drop HEADER_LEN).take IV_LEN

/-- Container parsing in `_handle_decrypt` (lines 137-140): the remainder
after signature and nonce is the ciphertext with its tag. -/
def parseCiphertext (fileBytes : List Nat) : List Nat :=
  (fileBytes.drop HEADER_LEN).drop IV_LEN

/-- Outcome of opening a file and reading from it: the bytes obtained, a
`FileNotFoundError`, or another OS error such as `PermissionError`. -/
inductive ReadResult
  | found (bytes : List Nat)
  | notFound
  | permissionDenied

/-- `_is_already_encrypted` (lines 54-61): read the first `HEADER_LEN` bytes
and compare them with the signature.  Only `FileNotFoundError` is caught and
turned into `False`; any other OS error propagates out of the method, which
the `Except.error` branch records. -/
def isAlreadyEncrypted : ReadResult → Except Unit Bool
  | .found bs => .ok (bs.take HEADER_LEN == HEADER_SIGNATURE)
  | .notFound => .ok false
  | .permissionDenied => .error ()

/-- One lowercase hexadecimal digit, as produced by `hexdigest`. -/
def hexDigitLower (n : Nat) : Char :=
  if n < 10 then Char.ofNat (48 + n) else Char.ofNat (87 + n)

/-- Two lowercase hex characters for one byte, high nibble first. -/
def byteHex (b : Nat) : List Char :=
  [hexDigitLower (b / 16), hexDigitLower (b % 16)]

/-- `hashlib` digest rendering: each byte as two lowercase hex characters. -/
def hexdigest (bs : List Nat) : List Char :=
  (bs.map byteHex).flatten

/-- `hashlib.sha1(password.encode("utf-8")).hexdigest().upper()` (line 210),
with the SHA-1 core as a parameter. -/
def sha1HexUpper (sha1 : List Nat → List Nat) (pwUtf8 : List Nat) : List Char :=
  (hexdigest (sha1 pwUtf8)).map Char.toUpper

/-- The fixed part of the range-query URL (line 213). -/
def pwnedUrlBase : List Char := "https://api.pwnedpasswords.com/range/".toList

/-- The URL handed to `requests.get` (lines 210-215): the fixed base followed
by `sha1_pw[:5]`, the first five characters of the uppercase hex digest.
This is the only outgoing request the breach-check client makes. -/
def pwnedUrl (sha1 : List Nat → List Nat) (pwUtf8 : List Nat) : List Char :=
  pwnedUrlBase ++ (sha1HexUpper sha1 pwUtf8).take 5

/-- Split a character list at every occurrence of `c`; the separators are
consumed.  Always returns at least one (possibly empty) piece. -/
def splitOnChar (c : Char) : List Char → List (List Char)
  | [] => [[]]
  | a :: rest =>
    match splitOnChar c rest with
    | [] => [[]]
    | grp :: gs => if a = c then [] :: grp :: gs else (a :: grp) :: gs

/-- Python `str.splitlines` restricted to the newline character: split on
every newline, except that a trailing newline contributes no empty final
line and the empty string has no lines at all. -/
def splitlines (s : List Char) : List (List Char) :=
  if s = [] then []
  else if s.getLast? = some '\n' then (splitOnChar '\n' s).dropLast
  else splitOnChar '\n' s

/-- Python `line.split(":")[0]` (line 219): the text before the first colon,
or the whole line when it has none. -/
def firstField (line : List Char) : List Char :=
  match splitOnChar ':' line with
  | [] => []
  | f :: _ => f

/-- Outcome of `requests.get`: a response carrying a status code and a body,
or a transport error (the `except` branch of lines 221-223). -/
inductive HttpResult
  | success (statusCode : Nat) (text : List Char)
  | netError

/-- `_check_password_pwned` (lines 209-223), with the HTTP exchange as an
input: a non-200 status or a transport error yields `false` (after a printed
warning), and a 200 response yields whether the 35-character hash tail
appears as the before-colon field of one of the response lines. -/
def checkPasswordPwned (sha1 : List Nat → List Nat) (pwUtf8 : List Nat) :
    HttpResult → Bool
  | .netError => false
  | .success code text =>
    if code ≠ 200 then false
    else
      ((splitlines text).map firstField).contains ((sha1HexUpper sha1 pwUtf8).drop 5)

/-- `_ask_password_and_verify` (lines 183-194), driven by a script of
interactions: each entry is the password typed, the HTTP exchange its breach
check would see, and the answer to the use-it-anyway confirmation.  An empty
password re-prompts; a breached password is either overridden or re-entered;
`none` means the script ran out while the loop still wanted input. -/
def askPasswordAndVerify (sha1 : List Nat → List Nat) :
    List (List Nat × HttpResult × Bool) → Option (List Nat)
  | [] => none
  | (pw, resp, useAnyway) :: rest =>
    if pw = [] then askPasswordAndVerify sha1 rest
    else if checkPasswordPwned sha1 pw resp then
      if useAnyway then some pw else askPasswordAndVerify sha1 rest
    else some pw

/-- Result of the decrypt loop: a successful write of the plaintext, the
operator declining the retry prompt (lines 163-165), or the interaction
script running out while the loop still wanted input. -/
inductive DecryptOutcome
  | written (plaintext : List Nat)
  | abandoned
  | promptsExhausted
deriving DecidableEq

/-- The password-retry loop of `_handle_decrypt` (lines 129-165), driven by a
script of interactions: each entry is the password typed, the result of
reading the container file (`none` models an I/O failure, which the bare
`except Exception` of line 161 catches exactly like an authentication
failure), and the answer to the retry confirmation.  An empty password
re-prompts without touching the file; a successful AEAD decryption writes
the plaintext and leaves the loop. -/
def handleDecryptLoop (aeadDec : List Nat → List Nat → List Nat → Option (List Nat))
    (sha256 : List Nat → List Nat) :
    List (List Nat × Option (List Nat) × Bool) → DecryptOutcome
  | [] => .promptsExhausted
  | (pw, readRes, retry) :: rest =>
    if pw = [] then handleDecryptLoop aeadDec sha256 rest
    else
      match readRes with
      | none =>
        if retry then handleDecryptLoop aeadDec sha256 rest else .abandoned
      | some fileBytes =>
        match aeadDec (deriveKey sha256 pw) (parseIv fileBytes) (parseCiphertext fileBytes) with
        | some pt => .written pt
        | none =>
          if retry then handleDecryptLoop aeadDec sha256 rest else .abandoned

/-- Filesystem state seen by `_handle_encrypt`: whether the input path is a
regular file, its content, and whether the output path already exists. -/
structure EncryptFs where
  inputIsFile : Bool
  inputBytes : List Nat
  outputExists : Bool

/-- The confirmation answers `_handle_encrypt` may ask for. -/
structure EncryptAnswers where
  overwrite : Bool
  deleteOriginal : Bool

/-- How `_handle_encrypt` ended. -/
inductive EncOutcome
  | inputMissing
  | alreadyEncrypted
  | cancelled
  | completed
deriving DecidableEq

/-- Effects of `_handle_encrypt`: the bytes written to the output path, if
any, and whether the original file was deleted. -/
structure EncResult where
  outcome : EncOutcome
  outputWritten : Option (List Nat)
  originalDeleted : Bool

/-- `_handle_encrypt` (lines 63-114): abort when the input is not a regular
file, abort when it already starts with the signature, ask to overwrite an
existing output and abort on decline, otherwise write the container and
optionally delete the original.  The password comes from the (separately
modelled) password prompt and the nonce from `os.urandom`. -/
def handleEncrypt (aeadEnc : List Nat → List Nat → List Nat → List Nat)
    (sha256 : List Nat → List Nat) (fs : EncryptFs) (pw iv : List Nat)
    (ans : EncryptAnswers) : EncResult :=
  if fs.inputIsFile = false then ⟨.inputMissing, none, false⟩
  else if fs.inputBytes.take HEADER_LEN == HEADER_SIGNATURE then
    ⟨.alreadyEncrypted, none, false⟩
  else if fs.outputExists && !ans.overwrite then ⟨.cancelled, none, false⟩
  else
    ⟨.completed, some (encryptContainer aeadEnc (deriveKey sha256 pw) iv fs.inputBytes),
      ans.deleteOriginal⟩

/-- The extension constant `".yjch"` used on lines 75 and 126. -/
def yjchPat : List Char := ".yjch".toList

/-- The indices at which `".yjch"` occurs in `s`, in increasing order. -/
def yjchStarts (s : List Char) : List Nat :=
  (List.range (s.length + 1)).filter (fun i => (s.drop i).take yjchPat.length == yjchPat)

/-- `path.rsplit(".yjch", 1)[0]` (line 126): everything before the last
occurrence of `".yjch"`, or the whole path when it does not occur. -/
def outputDefault (s : List Char) : List Char :=
  match (yjchStarts s).getLast? with
  | some i => s.take i
  | none => s

/-- `_ask_output_path` (lines 127, 196-199): the operator may type an output
path; keeping the default uses `outputDefault` of the input path. -/
def decryptWriteTarget (inputPath : List Char) (override : Option (List Char)) : List Char :=
  override.getD (outputDefault inputPath)

/-- A stand-in AEAD encryptor used to instantiate the parametric theorems:
it appends a 16-byte tag of zeros, so it has the same length behaviour as
AES-GCM. -/
def trivAeadEnc (_key _iv p : List Nat) : List Nat :=
  p ++ List.replicate 16 0

/-- The matching stand-in AEAD decryptor: strips the 16-byte tag. -/
def trivAeadDec (_key _iv c : List Nat) : Option (List Nat) :=
  some (c.take (c.length - 16))

/-! ### Helper lemmas -/

theorem header_len_eq : HEADER_LEN = 8 := rfl

/-- Parsing inverts the container layout: the nonce and ciphertext written by
the encrypt path are recovered exactly by the decrypt-path reads. -/
theorem parse_encryptContainer (aeadEnc : List Nat → List Nat → List Nat → List Nat)
    (key iv data : List Nat) (hiv : iv.length = IV_LEN) :
    parseIv (encryptContainer aeadEnc key iv data) = iv ∧
    parseCiphertext (encryptContainer aeadEnc key iv data) = aeadEnc key iv data := by
  unfold parseIv parseCiphertext encryptContainer
  rw [show HEADER_LEN = HEADER_SIGNATURE.length from rfl, List.append_assoc,
    List.drop_left, List.take_left' hiv, List.drop_left' hiv]
  exact ⟨rfl, rfl⟩

/-- The stand-in AEAD satisfies the round-trip contract that the real AES-GCM
library provides. -/
theorem trivAead_roundtrip (k n p : List Nat) :
    trivAeadDec k n (trivAeadEnc k n p) = some p := by
  unfold trivAeadEnc trivAeadDec
  simp

/-- The stand-in AEAD satisfies the length contract of AES-GCM: sixteen tag
bytes are appended to the plaintext. -/
theorem trivAeadEnc_length (k n p : List Nat) :
    (trivAeadEnc k n p).length = p.length + 16 := by
  simp [trivAeadEnc]

/-! ### Claim theorems -/

/-- C1: for every plaintext, every non-empty password and every 12-byte
nonce, running the decrypt loop on the container produced by the encrypt
path with the same password recovers exactly the plaintext, provided the
AEAD primitive satisfies its round-trip contract (decrypting with the
key and nonce used for encryption returns the plaintext). -/
theorem decrypt_encrypt_roundtrip
    (aeadEnc : List Nat → List Nat → List Nat → List Nat)
    (aeadDec : List Nat → List Nat → List Nat → Option (List Nat))
    (sha256 : List Nat → List Nat)
    (hrt : ∀ k n p, aeadDec k n (aeadEnc k n p) = some p)
    (pw data iv : List Nat) (hpw : pw ≠ []) (hiv : iv.length = IV_LEN)
    (retry : Bool) :
    handleDecryptLoop aeadDec sha256
      [(pw, some (encryptContainer aeadEnc (deriveKey sha256 pw) iv data), retry)]
      = DecryptOutcome.written data := by
  obtain ⟨h1, h2⟩ := parse_encryptContainer aeadEnc (deriveKey sha256 pw) iv data hiv
  simp only [handleDecryptLoop, if_neg hpw, h1, h2, hrt]

/-- C1 witness: a concrete round trip with the stand-in AEAD, password
`[1]`, plaintext `[7, 8]` and an all-zero nonce. -/
theorem decrypt_encrypt_roundtrip_witness :
    handleDecryptLoop trivAeadDec id
      [([1], some (encryptContainer trivAeadEnc (deriveKey id [1]) (List.replicate 12 0) [7, 8]), true)]
      = DecryptOutcome.written [7, 8] :=
  decrypt_encrypt_roundtrip trivAeadEnc trivAeadDec id trivAead_roundtrip
    [1] [7, 8] (List.replicate 12 0) (by decide) (by decide) true

/-- C7: for every plaintext, the container is
signature (8 bytes) at offset 0, nonce (12 bytes) at offset 8, and the AEAD
output from offset 20, with total length 8 + 12 + len(P) + 16 under the
AES-GCM length contract; an 11-byte plaintext gives a 47-byte container. -/
theorem encryptContainer_layout
    (aeadEnc : List Nat → List Nat → List Nat → List Nat)
    (key iv data : List Nat)
    (hlen : (aeadEnc key iv data).length = data.length + 16)
    (hiv : iv.length = IV_LEN) :
    (encryptContainer aeadEnc key iv data).length = 8 + 12 + data.length + 16 ∧
    (encryptContainer aeadEnc key iv data).take 8 = HEADER_SIGNATURE ∧
    ((encryptContainer aeadEnc key iv data).drop 8).take 12 = iv ∧
    (encryptContainer aeadEnc key iv data).drop 20 = aeadEnc key iv data ∧
    (data.length = 11 → (encryptContainer aeadEnc key iv data).length = 47) := by
  have hsig : HEADER_SIGNATURE.length = 8 := rfl
  have hiv12 : iv.length = 12 := hiv
  refine ⟨?_, ?_, ?_, ?_, ?_⟩
  · simp [encryptContainer, hlen, hsig, hiv12]
    omega
  · rw [encryptContainer, List.append_assoc, List.take_left' hsig]
  · rw [encryptContainer, List.append_assoc, List.drop_left' hsig, List.take_left' hiv12]
  · rw [encryptContainer, List.drop_left']
    rw [List.length_append, hsig, hiv12]
  · intro h11
    simp [encryptContainer, hlen, hsig, hiv12, h11]

/-- C7 witness: an 11-byte plaintext with the stand-in AEAD gives a 47-byte
container. -/
theorem encryptContainer_layout_witness :
    (encryptContainer trivAeadEnc [] (List.replicate 12 0) (List.replicate 11 5)).length = 47 :=
  (encryptContainer_layout trivAeadEnc [] (List.replicate 12 0) (List.replicate 11 5)
    (trivAeadEnc_length [] (List.replicate 12 0) (List.replicate 11 5))
    (by decide)).2.2.2.2 (by decide)

/-- C2: k-anonymity privacy of the breach check.  The single outgoing request
is the fixed base URL followed by exactly the first five characters of the
uppercase hex SHA-1 of the password, and two passwords whose hashes share
that 5-character head produce identical requests — so nothing beyond those
five characters (not the 35-character tail, not the full hash, not the
password) influences any outgoing data. -/
theorem pwnedUrl_privacy (sha1 : List Nat → List Nat) (pw1 pw2 : List Nat)
    (h : (sha1HexUpper sha1 pw1).take 5 = (sha1HexUpper sha1 pw2).take 5) :
    pwnedUrl sha1 pw1 = pwnedUrlBase ++ (sha1HexUpper sha1 pw1).take 5 ∧
    pwnedUrl sha1 pw1 = pwnedUrl sha1 pw2 := by
  unfold pwnedUrl
  rw [h]
  exact ⟨rfl, rfl⟩

/-- C2 witness: two concrete distinct passwords under a constant hash core
give the same request. -/
theorem pwnedUrl_privacy_witness :
    pwnedUrl (fun _ => List.replicate 20 0) [] =
      pwnedUrlBase ++ (sha1HexUpper (fun _ => List.replicate 20 0) []).take 5 ∧
    pwnedUrl (fun _ => List.replicate 20 0) [] = pwnedUrl (fun _ => List.replicate 20 0) [1] :=
  pwnedUrl_privacy (fun _ => List.replicate 20 0) [] [1] rfl

/-- C3 counterexample: on a file that exists but cannot be read (for example
`PermissionError`), `_is_already_encrypted` does not return false — the
error propagates, because only `FileNotFoundError` is caught. -/
theorem isAlreadyEncrypted_raises_on_unreadable :
    isAlreadyEncrypted ReadResult.permissionDenied = Except.error () := rfl

/-- C3 amended: the probe returns true exactly when the first 8 bytes of a
readable file equal the signature; a file shorter than 8 bytes and a missing
file both give false; but an unreadable file propagates the OS error rather
than returning false. -/
theorem isAlreadyEncrypted_spec (bs : List Nat) :
    (isAlreadyEncrypted (ReadResult.found bs) = Except.ok true ↔
      bs.take HEADER_LEN = HEADER_SIGNATURE) ∧
    (bs.length < HEADER_LEN → isAlreadyEncrypted (ReadResult.found bs) = Except.ok false) ∧
    isAlreadyEncrypted ReadResult.notFound = Except.ok false := by
  refine ⟨?_, ?_, rfl⟩
  · simp [isAlreadyEncrypted]
  · intro hshort
    rw [header_len_eq] at hshort
    have hne : bs.take HEADER_LEN ≠ HEADER_SIGNATURE := by
      intro heq
      have h1 : (bs.take HEADER_LEN).length = 8 := by rw [heq]; rfl
      rw [List.length_take, header_len_eq] at h1
      omega
    simp [isAlreadyEncrypted, hne]

/-- C3 witness: the empty file is shorter than the signature and the probe
answers false. -/
theorem isAlreadyEncrypted_spec_witness :
    isAlreadyEncrypted (ReadResult.found []) = Except.ok false :=
  (isAlreadyEncrypted_spec []).2.1 (by decide)

/-- C10: the decrypt default output path keeps only the part of the input
path before the last occurrence of `".yjch"` — so `"doc.yjch.bak"` becomes
`"doc"` — and a path without any occurrence is returned unchanged, so the
default write target of the decrypt loop is then the container path itself. -/
theorem outputDefault_spec (s : List Char) (hno : yjchStarts s = []) :
    outputDefault "doc.yjch.bak".toList = "doc".toList ∧
    outputDefault s = s ∧
    decryptWriteTarget s none = s := by
  refine ⟨by decide, ?_, ?_⟩
  · simp [outputDefault, hno]
  · simp [decryptWriteTarget, outputDefault, hno]

/-- C10 witness: a concrete container path without the extension is its own
default output path. -/
theorem outputDefault_spec_witness :
    outputDefault "archive.bin".toList = "archive.bin".toList ∧
    decryptWriteTarget "archive.bin".toList none = "archive.bin".toList :=
  ⟨(outputDefault_spec "archive.bin".toList (by decide)).2.1,
   (outputDefault_spec "archive.bin".toList (by decide)).2.2⟩

/-- C4 counterexample: the breach check returns a plain boolean, and its value
after a transport error equals its value after a successful query whose
response contains no matching record — the code offers no `queried` flag, so
the two situations are not distinct for the caller. -/
theorem pwned_failure_not_distinct :
    checkPasswordPwned (fun _ => List.replicate 20 0) [] HttpResult.netError
      = checkPasswordPwned (fun _ => List.replicate 20 0) [] (HttpResult.success 200 []) := rfl

/-- C4 amended: on a non-200 status or a transport error the breach check
returns false (after printing a warning), indistinguishable from a no-match
success, and the password-acquisition loop then accepts the password at once
— the encryption workflow proceeds. -/
theorem pwned_fail_open (sha1 : List Nat → List Nat) (pw : List Nat) (code : Nat)
    (body : List Char) (conf : Bool) (rest : List (List Nat × HttpResult × Bool))
    (hc : code ≠ 200) (hpw : pw ≠ []) :
    checkPasswordPwned sha1 pw (HttpResult.success code body) = false ∧
    checkPasswordPwned sha1 pw HttpResult.netError = false ∧
    askPasswordAndVerify sha1 ((pw, HttpResult.netError, conf) :: rest) = some pw := by
  refine ⟨?_, rfl, ?_⟩
  · simp [checkPasswordPwned, hc]
  · simp [askPasswordAndVerify, hpw, checkPasswordPwned]

/-- C4 witness: a 500 status and a transport error both yield false and the
workflow accepts the concrete password `[2]`. -/
theorem pwned_fail_open_witness :
    checkPasswordPwned (fun _ => []) [2] (HttpResult.success 500 []) = false ∧
    checkPasswordPwned (fun _ => []) [2] HttpResult.netError = false ∧
    askPasswordAndVerify (fun _ => []) [([2], HttpResult.netError, false)] = some [2] :=
  pwned_fail_open (fun _ => []) [2] 500 [] false [] (by decide) (by decide)

/-- C5 counterexample: an I/O failure while reading the container (modelled
by `none`) is caught by the bare `except` and drives the retry prompt:
answering yes lets a later password attempt run and succeed, and answering
no ends via the retry prompt — the operation is not aborted on the spot. -/
theorem decrypt_io_error_reaches_retry :
    handleDecryptLoop (fun _ _ c => some c) id
      [([1], none, true), ([2], some (HEADER_SIGNATURE ++ List.replicate 12 0 ++ [9]), true)]
      = DecryptOutcome.written [9] ∧
    handleDecryptLoop (fun _ _ c => some c) id [([1], none, false)]
      = DecryptOutcome.abandoned := by
  constructor <;> rfl

/-- C5 amended: an I/O failure while reading the container is handled exactly
like an authentication failure: the operator is shown the failure message and
the retry prompt; answering yes continues the password-retry loop, answering
no abandons the operation. -/
theorem decrypt_io_error_retry (aeadDec : List Nat → List Nat → List Nat → Option (List Nat))
    (sha256 : List Nat → List Nat) (pw : List Nat) (hpw : pw ≠ [])
    (rest : List (List Nat × Option (List Nat) × Bool)) :
    handleDecryptLoop aeadDec sha256 ((pw, none, true) :: rest)
      = handleDecryptLoop aeadDec sha256 rest ∧
    handleDecryptLoop aeadDec sha256 ((pw, none, false) :: rest)
      = DecryptOutcome.abandoned := by
  constructor <;> simp [handleDecryptLoop, hpw]

/-- C5 amended witness: with password `[3]` and no further scripted input, a
read failure answered with no abandons the operation. -/
theorem decrypt_io_error_retry_witness :
    handleDecryptLoop (fun _ _ _ => none) id [([3], none, false)]
      = DecryptOutcome.abandoned :=
  (decrypt_io_error_retry (fun _ _ _ => none) id [3] (by decide) []).2

/-- C8: if the encrypt output path already exists and the operator declines
the overwrite confirmation, nothing is written and the original file is not
deleted; when the earlier preconditions held, the outcome is the cancelled
one. -/
theorem encrypt_overwrite_decline_no_write
    (aeadEnc : List Nat → List Nat → List Nat → List Nat)
    (sha256 : List Nat → List Nat) (fs : EncryptFs) (pw iv : List Nat)
    (ans : EncryptAnswers)
    (hexi : fs.outputExists = true) (hov : ans.overwrite = false) :
    (handleEncrypt aeadEnc sha256 fs pw iv ans).outputWritten = none ∧
    (handleEncrypt aeadEnc sha256 fs pw iv ans).originalDeleted = false ∧
    (fs.inputIsFile = true → (fs.inputBytes.take HEADER_LEN == HEADER_SIGNATURE) = false →
      (handleEncrypt aeadEnc sha256 fs pw iv ans).outcome = EncOutcome.cancelled) := by
  cases hin : fs.inputIsFile <;>
    cases hbe : (fs.inputBytes.take HEADER_LEN == HEADER_SIGNATURE) <;>
      simp [handleEncrypt, hin, hbe, hexi, hov]

/-- C8 witness: a concrete declined overwrite writes nothing and deletes
nothing. -/
theorem encrypt_overwrite_decline_no_write_witness :
    (handleEncrypt trivAeadEnc id ⟨true, [0], true⟩ [1] (List.replicate 12 0)
      ⟨false, false⟩).outputWritten = none :=
  (encrypt_overwrite_decline_no_write trivAeadEnc id ⟨true, [0], true⟩ [1]
    (List.replicate 12 0) ⟨false, false⟩ rfl rfl).1

/-- C9: the decrypt retry state machine.  An empty password re-prompts in
place, independently of the file contents and of any confirmation answer; a
failed decryption followed by a yes returns to password entry while a no
abandons the operation with nothing written; a successful decryption writes
the plaintext and ends the loop. -/
theorem decrypt_retry_state_machine
    (aeadDec : List Nat → List Nat → List Nat → Option (List Nat))
    (sha256 : List Nat → List Nat) (pw : List Nat) (hpw : pw ≠ [])
    (r : Option (List Nat)) (b retry : Bool) (file pt : List Nat)
    (rest : List (List Nat × Option (List Nat) × Bool)) :
    handleDecryptLoop aeadDec sha256 (([], r, b) :: rest)
        = handleDecryptLoop aeadDec sha256 rest ∧
    (aeadDec (deriveKey sha256 pw) (parseIv file) (parseCiphertext file) = none →
      handleDecryptLoop aeadDec sha256 ((pw, some file, true) :: rest)
          = handleDecryptLoop aeadDec sha256 rest ∧
      handleDecryptLoop aeadDec sha256 ((pw, some file, false) :: rest)
          = DecryptOutcome.abandoned) ∧
    (aeadDec (deriveKey sha256 pw) (parseIv file) (parseCiphertext file) = some pt →
      handleDecryptLoop aeadDec sha256 ((pw, some file, retry) :: rest)
          = DecryptOutcome.written pt) := by
  refine ⟨by simp [handleDecryptLoop], ?_, ?_⟩
  · intro hfail
    constructor <;> simp [handleDecryptLoop, hpw, hfail]
  · intro hok
    simp [handleDecryptLoop, hpw, hok]

/-- C9 witness: with password `[1]` and an always-failing decryption,
declining the retry abandons the operation. -/
theorem decrypt_retry_state_machine_witness :
    handleDecryptLoop (fun _ _ _ => none) id [([1], some [], false)]
      = DecryptOutcome.abandoned :=
  ((decrypt_retry_state_machine (fun _ _ _ => none) id [1] (by decide)
    none false false [] [] []).2.1 rfl).2

/-- Each byte renders as exactly two hex characters. -/
theorem hexdigest_length (bs : List Nat) : (hexdigest bs).length = 2 * bs.length := by
  induction bs with
  | nil => rfl
  | cons b t ih =>
    simp [hexdigest, byteHex] at ih ⊢
    omega

/-- A 20-byte digest renders as 40 characters. -/
theorem sha1HexUpper_length (sha1 : List Nat → List Nat) (pw : List Nat)
    (h20 : (sha1 pw).length = 20) : (sha1HexUpper sha1 pw).length = 40 := by
  unfold sha1HexUpper
  rw [List.length_map, hexdigest_length, h20]

/-- C6: the breach-check client renders the SHA-1 digest as 40 uppercase hex
characters (`hexdigest().upper()`), keeps the 35-character tail after the
5-character head, and on a 200 response reports breached exactly when that
tail equals the before-colon field of some newline-separated record. -/
theorem pwned_membership (sha1 : List Nat → List Nat) (pw : List Nat) (body : List Char)
    (h20 : (sha1 pw).length = 20) :
    (sha1HexUpper sha1 pw).length = 40 ∧
    ((sha1HexUpper sha1 pw).drop 5).length = 35 ∧
    sha1HexUpper sha1 pw = (hexdigest (sha1 pw)).map Char.toUpper ∧
    (checkPasswordPwned sha1 pw (HttpResult.success 200 body) = true ↔
      ∃ line ∈ splitlines body, firstField line = (sha1HexUpper sha1 pw).drop 5) := by
  have h40 := sha1HexUpper_length sha1 pw h20
  refine ⟨h40, ?_, rfl, ?_⟩
  · rw [List.length_drop, h40]
  · have hred : checkPasswordPwned sha1 pw (HttpResult.success 200 body)
        = ((splitlines body).map firstField).contains ((sha1HexUpper sha1 pw).drop 5) := by
      simp [checkPasswordPwned]
    rw [hred]
    constructor
    · intro hc
      exact List.mem_map.mp (List.elem_iff.mp hc)
    · intro hm
      exact List.elem_iff.mpr (List.mem_map.mpr hm)

/-- C6 witness: under a concrete 20-byte digest the rendered hash has 40
characters. -/
theorem pwned_membership_witness :
    (sha1HexUpper (fun _ => List.replicate 20 0) []).length = 40 :=
  (pwned_membership (fun _ => List.replicate 20 0) [] [] (by decide)).1

end Crypter
